import Mathlib

/-!
Verification of the habit-chain-tracker authentication slice.

The repository contains successive revisions of a React `AuthProvider`
(session store over the Supabase auth SDK), a `ProtectedRoute` route
guard, and an `Auth` form component.  We embed the pure decision logic
of these components shallowly:

* the redirect-URL resolvers (`getBaseUrl` in its several revisions,
  `getOAuthRedirectUrl` / `getAppBaseUrl`);
* the redirect URLs passed to the auth SDK by `signUp`,
  `resetPassword` and `signInWithGoogle`;
* the sign-up form submission validation (`handleSubmit`);
* the route guard (`ProtectedRoute`);
* the two session callbacks of `AuthProvider` (auth-state-change
  subscription and initial `getSession` fetch), including the
  hash-navigation revision;
* the `useAuth` context accessor.

Effectful browser/SDK interactions (network, `window`) are modelled by
making their inputs explicit parameters (hostname, origin, base path,
current location hash, session value delivered by the SDK) and their
outputs explicit result values (redirect URL strings, call counts,
rendered outcome).
-/

namespace HabitChain

/-- The signed-in principal, as cached by the session store
(`session?.user`).  Only presence and identity matter to the claims. -/
structure User where
  id : String
  email : String
  deriving Repr, DecidableEq

/-- An active authentication grant.  The store treats it as opaque
beyond presence/absence and its `user` field. -/
structure Session where
  user : User
  deriving Repr, DecidableEq

/-! ## RedirectResolver revisions -/

/-- `getBaseUrl` of the revision that branches on both `localhost` and
`127.0.0.1` (src/unnamed/part_001, lines 32–45).

```js
const hostname = window.location.hostname;
if (hostname === 'localhost' || hostname === '127.0.0.1') {
  return 'http://localhost:8080/HabitChainTracker_prototype1/';
}
return 'https://jefferymaina.github.io/HabitChainTracker_prototype1';
```

The `typeof window === 'undefined'` guard (server-side rendering, no
hostname at all) is outside the model: the resolver's input here is the
hostname read from `window.location`. -/
def getBaseUrl_v1 (hostname : String) : String :=
  if hostname = "localhost" ∨ hostname = "127.0.0.1" then
    "http://localhost:8080/HabitChainTracker_prototype1/"
  else
    "https://jefferymaina.github.io/HabitChainTracker_prototype1"

/-- `getOAuthRedirectUrl` (src/unnamed/part_002, lines 32–45): same
two-way switch as `getBaseUrl_v1`, used for the Google OAuth redirect. -/
def getOAuthRedirectUrl (hostname : String) : String :=
  if hostname = "localhost" ∨ hostname = "127.0.0.1" then
    "http://localhost:8080/HabitChainTracker_prototype1/"
  else
    "https://jefferymaina.github.io/HabitChainTracker_prototype1"

/-- `getAppBaseUrl` (src/unnamed/part_002, lines 48–53): returns
`getOAuthRedirectUrl()` unchanged. -/
def getAppBaseUrl (hostname : String) : String :=
  getOAuthRedirectUrl hostname

/-- `getBaseUrl` of the later revision (src/unnamed/part_002, lines
182–187, and identically src/unnamed/part_003, lines 19–24):

```js
return window.location.hostname === 'localhost'
  ? 'http://localhost:8080/HabitChainTracker_prototype1'
  : 'https://jefferymaina.github.io/HabitChainTracker_prototype1';
```

Note: this revision tests only `'localhost'`; `'127.0.0.1'` falls to
the production branch, and the local URL has no trailing slash. -/
def getBaseUrl_v2 (hostname : String) : String :=
  if hostname = "localhost" then
    "http://localhost:8080/HabitChainTracker_prototype1"
  else
    "https://jefferymaina.github.io/HabitChainTracker_prototype1"

/-- `getBaseUrl` of the environment-variable revision
(src/unnamed/part_000, lines 387–397):

```js
const basePath = import.meta.env.BASE_URL || '/';
const cleanBasePath = basePath.endsWith('/') ? basePath.slice(0, -1) : basePath;
return `${window.location.origin}${cleanBasePath}`;
```

`origin` is `window.location.origin`; `basePathEnv` is the Vite
`BASE_URL` value (the JS `||` falls back to `"/"` on the empty
string). -/
def getBaseUrl_v0 (origin basePathEnv : String) : String :=
  let basePath := if basePathEnv = "" then "/" else basePathEnv
  let cleanBasePath :=
    if basePath.endsWith "/" then basePath.dropRight 1 else basePath
  origin ++ cleanBasePath

/-! ## Redirect URLs passed to the auth SDK -/

/-- `redirectTo` passed by `signInWithGoogle` in the revision of
src/unnamed/part_002, lines 111–125: `getOAuthRedirectUrl()`, with the
source comment `NO "#" here – this is critical`. -/
def signInWithGoogleRedirect_vA (hostname : String) : String :=
  getOAuthRedirectUrl hostname

/-- `redirectTo` passed by `signInWithGoogle` in the revision of
src/unnamed/part_002, lines 238–250: `` `${baseUrl}/#/` `` with
`baseUrl = getBaseUrl()` of that revision (`getBaseUrl_v2`). -/
def signInWithGoogleRedirect_vB (hostname : String) : String :=
  getBaseUrl_v2 hostname ++ "/#/"

/-- `emailRedirectTo` passed by `signUp` in src/unnamed/part_000,
lines 426–444: `` `${baseUrl}/#/auth` `` with `baseUrl = getBaseUrl()`
(`getBaseUrl_v0`).  The email argument does not enter the URL. -/
def signUpEmailRedirect (origin basePathEnv : String) : String :=
  getBaseUrl_v0 origin basePathEnv ++ "/#/auth"

/-- `redirectTo` passed by `resetPassword` in src/unnamed/part_000,
lines 475–486: `` `${baseUrl}/#/auth` ``, same construction as
`signUpEmailRedirect`. -/
def resetPasswordRedirect (origin basePathEnv : String) : String :=
  getBaseUrl_v0 origin basePathEnv ++ "/#/auth"

/-! ## SessionStore state and callbacks (`AuthProvider`) -/

/-- The React state of `AuthProvider`: `user`, `session`, `loading`
(src/unnamed/part_000, lines 399–402). -/
structure AuthState where
  user : Option User
  session : Option Session
  loading : Bool
  deriving Repr, DecidableEq

/-- Initial `AuthProvider` state: `useState<User | null>(null)`,
`useState<Session | null>(null)`, `useState(true)`. -/
def initAuthState : AuthState :=
  { user := none, session := none, loading := true }

/-- The `onAuthStateChange` subscription callback (src/unnamed/part_000,
lines 404–412): `setSession(session); setUser(session?.user ?? null);
setLoading(false)`.  The delivered session is the callback's input; the
event argument is ignored in this revision. -/
def onAuthStateChangeCallback (session : Option Session) (st : AuthState) : AuthState :=
  { st with
      session := session
      user := session.map Session.user
      loading := false }

/-- The initial `getSession().then` callback (src/unnamed/part_000,
lines 414–419): same three updates as the subscription callback. -/
def getSessionCallback (session : Option Session) (st : AuthState) : AuthState :=
  { st with
      session := session
      user := session.map Session.user
      loading := false }

/-- The events that can touch the `AuthProvider` state.  The five SDK
operations (`signIn`, `signUp`, `signInWithGoogle`, `signOut`,
`resetPassword`; src/unnamed/part_000, lines 426–486) call the external
service but never call `setUser`/`setSession`/`setLoading` themselves:
every mutation of the provider state arrives through the two callbacks,
so the operations are identity steps on the store and their effects
surface later as `authChange` notifications. -/
inductive AuthOp where
  | authChange (s : Option Session)
  | sessionFetch (s : Option Session)
  | signIn
  | signUp
  | signInWithGoogle
  | signOut
  | resetPassword
  deriving Repr, DecidableEq

/-- One step of the SessionStore: the two callbacks apply their session
payload; the SDK operations leave the provider state unchanged. -/
def applyAuthOp (st : AuthState) : AuthOp → AuthState
  | .authChange s => onAuthStateChangeCallback s st
  | .sessionFetch s => getSessionCallback s st
  | .signIn => st
  | .signUp => st
  | .signInWithGoogle => st
  | .signOut => st
  | .resetPassword => st

/-- States the SessionStore can reach from process start. -/
inductive ReachableAuth : AuthState → Prop where
  | init : ReachableAuth initAuthState
  | step {st : AuthState} (op : AuthOp) :
      ReachableAuth st → ReachableAuth (applyAuthOp st op)

/-! ## The hash-navigation revision (src/unnamed/part_003) -/

/-- Provider state together with `window.location.hash` for the
revision whose callbacks navigate explicitly. -/
structure NavState where
  auth : AuthState
  hash : String
  deriving Repr, DecidableEq

/-- The `onAuthStateChange` callback of src/unnamed/part_003 (lines
31–47): the three state setters run unconditionally; then, when a
session is present and the event is `SIGNED_IN` or `INITIAL_SESSION`
and the current hash is `""`, `"#/"` or `"#/auth"`, the hash is set to
`"#/dashboard"`. -/
def authChangeCallback_v3 (event : String) (session : Option Session)
    (st : NavState) : NavState :=
  { auth :=
      { session := session
        user := session.map Session.user
        loading := false }
    hash :=
      if session.isSome ∧ (event = "SIGNED_IN" ∨ event = "INITIAL_SESSION") then
        if st.hash = "" ∨ st.hash = "#/" ∨ st.hash = "#/auth" then "#/dashboard"
        else st.hash
      else st.hash }

/-- The initial `getSession().then` callback of src/unnamed/part_003
(lines 50–61): same setters; the hash moves to `"#/dashboard"` when a
session is present and the hash is `""`, `"#/"` or `"#/auth"` (no
event condition here). -/
def getSessionCallback_v3 (session : Option Session) (st : NavState) : NavState :=
  { auth :=
      { session := session
        user := session.map Session.user
        loading := false }
    hash :=
      if session.isSome then
        if st.hash = "" ∨ st.hash = "#/" ∨ st.hash = "#/auth" then "#/dashboard"
        else st.hash
      else st.hash }

/-! ## `useAuth` context accessor -/

/-- `useAuth` (src/unnamed/part_000, lines 502–508; identically
src/unnamed/part_002, lines 276–282): reading the context outside a
provider yields `undefined` (`none` here) and throws; inside a
provider it returns the context value unchanged.  The thrown error is
modelled as `Except.error` with the exact message. -/
def useAuth {α : Type} (ctx : Option α) : Except String α :=
  match ctx with
  | none => Except.error "useAuth must be used within an AuthProvider"
  | some c => Except.ok c

/-! ## Sign-up form submission (src/unnamed/part_000, `handleSubmit`) -/

/-- The toasts `handleSubmit` can raise in sign-up mode
(src/unnamed/part_000, lines 42–98). -/
inductive SignupToast where
  | passwordsDoNotMatch
  | passwordTooShort
  | signUpFailed (msg : String)
  deriving Repr, DecidableEq

/-- Observable outcome of one sign-up submission: how many times the
external `signUp` call was attempted, which toast (if any) was shown,
and whether the check-your-email dialog was opened. -/
structure SubmitResult where
  externalSignUpCalls : Nat
  toast : Option SignupToast
  emailDialogShown : Bool
  deriving Repr, DecidableEq

/-- The sign-up branch of `handleSubmit` (src/unnamed/part_000, lines
42–98).  Checks run in source order: first
`password !== confirmPassword`, then `password.length < 6`; each
failure toasts and returns before any external call.  Otherwise
`signUp` is awaited once; `signUpError` is the `error` field of its
result (`some msg` when the external service rejected, surfaced
verbatim in the toast). -/
def handleSubmitSignup (password confirmPassword : String)
    (signUpError : Option String) : SubmitResult :=
  if password ≠ confirmPassword then
    { externalSignUpCalls := 0
      toast := some .passwordsDoNotMatch
      emailDialogShown := false }
  else if password.length < 6 then
    { externalSignUpCalls := 0
      toast := some .passwordTooShort
      emailDialogShown := false }
  else
    match signUpError with
    | some msg =>
        { externalSignUpCalls := 1
          toast := some (.signUpFailed msg)
          emailDialogShown := false }
    | none =>
        { externalSignUpCalls := 1
          toast := none
          emailDialogShown := true }

/-! ## RouteGuard (src/src/components/protectedroute.tsx) -/

/-- What `ProtectedRoute` returns to the renderer. -/
inductive GuardResult where
  | renderNothing
  | redirect (dest : String) (fromLoc : String)
  | renderChildren
  deriving Repr, DecidableEq

/-- `ProtectedRoute` (src/src/components/protectedroute.tsx, lines
4–18): while `loading` return `null`; then, without a `user`, return a
`Navigate` to `/auth` with navigation state `from: location`; otherwise
render the children.  `location` is the router's current location. -/
def ProtectedRoute (loading : Bool) (user : Option User)
    (location : String) : GuardResult :=
  if loading then .renderNothing
  else if user.isNone then .redirect "/auth" location
  else .renderChildren

end HabitChain

namespace HabitChain

/-! ## C1: the hostname switch of the redirect-base-URL resolver -/

/-- C1 fails as stated: the resolver of src/unnamed/part_002 lines
182–187 sends the loopback address `127.0.0.1` to the production URL,
not the fixed local URL. -/
theorem c1_loopback_counterexample :
    getBaseUrl_v2 "127.0.0.1"
        = "https://jefferymaina.github.io/HabitChainTracker_prototype1"
      ∧ (getBaseUrl_v2 "127.0.0.1"
          == "http://localhost:8080/HabitChainTracker_prototype1") = false
      ∧ (getBaseUrl_v2 "127.0.0.1"
          == "http://localhost:8080/HabitChainTracker_prototype1/") = false := by
  refine ⟨?_, ?_, ?_⟩ <;> decide

/-- C1, amended.  In the revision of src/unnamed/part_001 (and the
`getOAuthRedirectUrl` of part_002), the resolver returns the fixed
local URL exactly when the hostname is `localhost` or `127.0.0.1`, and
the fixed production URL for every other hostname.  In the revision of
src/unnamed/part_002 lines 182–187, it returns the fixed local URL
exactly when the hostname is `localhost`; every other hostname —
including the loopback address `127.0.0.1` — gets the production URL.
Each resolver is a pure function of the hostname alone. -/
theorem c1_hostname_switch (h : String) :
    ((h = "localhost" ∨ h = "127.0.0.1") →
        getBaseUrl_v1 h = "http://localhost:8080/HabitChainTracker_prototype1/"
      ∧ getOAuthRedirectUrl h
          = "http://localhost:8080/HabitChainTracker_prototype1/")
    ∧ (¬(h = "localhost" ∨ h = "127.0.0.1") →
        getBaseUrl_v1 h
          = "https://jefferymaina.github.io/HabitChainTracker_prototype1"
      ∧ getOAuthRedirectUrl h
          = "https://jefferymaina.github.io/HabitChainTracker_prototype1")
    ∧ (h = "localhost" →
        getBaseUrl_v2 h = "http://localhost:8080/HabitChainTracker_prototype1")
    ∧ (h ≠ "localhost" →
        getBaseUrl_v2 h
          = "https://jefferymaina.github.io/HabitChainTracker_prototype1") := by
  refine ⟨fun hl => ?_, fun hl => ?_, fun hl => ?_, fun hl => ?_⟩
  · exact ⟨if_pos hl, if_pos hl⟩
  · exact ⟨if_neg hl, if_neg hl⟩
  · exact if_pos hl
  · exact if_neg hl

/-- Witness for `c1_hostname_switch` at concrete hostnames. -/
theorem c1_hostname_switch_witness :
    getBaseUrl_v1 "127.0.0.1"
        = "http://localhost:8080/HabitChainTracker_prototype1/"
      ∧ getBaseUrl_v2 "127.0.0.1"
        = "https://jefferymaina.github.io/HabitChainTracker_prototype1"
      ∧ getBaseUrl_v2 "localhost"
        = "http://localhost:8080/HabitChainTracker_prototype1"
      ∧ getBaseUrl_v1 "example.com"
        = "https://jefferymaina.github.io/HabitChainTracker_prototype1" :=
  ⟨((c1_hostname_switch "127.0.0.1").1 (Or.inr rfl)).1,
   (c1_hostname_switch "127.0.0.1").2.2.2 (by decide),
   (c1_hostname_switch "localhost").2.2.1 rfl,
   ((c1_hostname_switch "example.com").2.1 (by decide)).1⟩

/-! ## C2: fragment-freeness of the OAuth redirect URL -/

/-- C2 fails as stated: in the revision of src/unnamed/part_002 lines
238–250, `signInWithGoogle` passes `` `${baseUrl}/#/` `` as the OAuth
redirect target, which carries the fragment `#/`. -/
theorem c2_fragment_counterexample :
    signInWithGoogleRedirect_vB "example.com"
        = "https://jefferymaina.github.io/HabitChainTracker_prototype1/#/"
      ∧ ((signInWithGoogleRedirect_vB "example.com").data.contains '#') = true := by
  exact ⟨by decide, by decide⟩

/-- C2, amended.  In the revision of src/unnamed/part_002 lines
111–125, the redirect URL `signInWithGoogle` passes to the auth
service is `getOAuthRedirectUrl()` — origin plus base path — and
contains no `#` fragment for any hostname.  In the revision of lines
238–250, the passed URL is the base URL with `/#/` appended, so it
does contain a fragment. -/
theorem c2_oauth_redirect (h : String) :
    ((signInWithGoogleRedirect_vA h).data.contains '#') = false
      ∧ signInWithGoogleRedirect_vB h = getBaseUrl_v2 h ++ "/#/"
      ∧ ((signInWithGoogleRedirect_vB h).data.contains '#') = true := by
  refine ⟨?_, rfl, ?_⟩
  · unfold signInWithGoogleRedirect_vA getOAuthRedirectUrl
    split <;> decide
  · unfold signInWithGoogleRedirect_vB getBaseUrl_v2
    split <;> decide

/-! ## C3: local validation gates the external sign-up call -/

/-- C3 confirmed: the external `signUp` call is attempted exactly once
iff the password has length at least 6 and equals the confirmation;
when either precondition fails, no external call is made and the toast
is `Passwords do not match` or `Password too short`.  The checks run
before any network call and in source order (mismatch first). -/
theorem c3_signup_validation (password confirmPassword : String)
    (signUpError : Option String) :
    ((handleSubmitSignup password confirmPassword signUpError).externalSignUpCalls = 1
       ↔ 6 ≤ password.length ∧ password = confirmPassword)
    ∧ (¬(6 ≤ password.length ∧ password = confirmPassword) →
        (handleSubmitSignup password confirmPassword signUpError).externalSignUpCalls = 0
        ∧ ((handleSubmitSignup password confirmPassword signUpError).toast
              = some SignupToast.passwordsDoNotMatch
           ∨ (handleSubmitSignup password confirmPassword signUpError).toast
              = some SignupToast.passwordTooShort)) := by
  unfold handleSubmitSignup
  split_ifs with h1 h2
  · refine ⟨⟨fun h => by simp at h, fun h => absurd h.2 h1⟩, fun _ => ⟨rfl, Or.inl rfl⟩⟩
  · push_neg at h1
    refine ⟨⟨fun h => by simp at h, fun h => absurd h.1 (by omega)⟩,
      fun _ => ⟨rfl, Or.inr rfl⟩⟩
  · push_neg at h1
    cases signUpError with
    | none =>
        refine ⟨⟨fun _ => ⟨by omega, h1⟩, fun _ => rfl⟩, fun hc => absurd ⟨by omega, h1⟩ hc⟩
    | some msg =>
        refine ⟨⟨fun _ => ⟨by omega, h1⟩, fun _ => rfl⟩, fun hc => absurd ⟨by omega, h1⟩ hc⟩

/-- Witness for `c3_signup_validation`: the spec's scenario password
`"abc12"` (5 characters, confirmation matching) is rejected locally
with zero external calls and the `Password too short` toast. -/
theorem c3_signup_validation_witness :
    (handleSubmitSignup "abc12" "abc12" none).externalSignUpCalls = 0
      ∧ ((handleSubmitSignup "abc12" "abc12" none).toast
            = some SignupToast.passwordsDoNotMatch
         ∨ (handleSubmitSignup "abc12" "abc12" none).toast
            = some SignupToast.passwordTooShort) :=
  (c3_signup_validation "abc12" "abc12" none).2 (by decide)

/-! ## C4, C8: the route guard -/

/-- C4 confirmed: while `loading` the guard renders nothing regardless
of the user; when not loading it renders the children iff a user is
present, and redirects (to `/auth`, carrying the current location)
when no user is present. -/
theorem c4_route_guard (loading : Bool) (user : Option User) (location : String) :
    (loading = true → ProtectedRoute loading user location = GuardResult.renderNothing)
    ∧ (loading = false →
        (ProtectedRoute loading user location = GuardResult.renderChildren
           ↔ user.isSome = true))
    ∧ (loading = false → user = none →
        ProtectedRoute loading user location = GuardResult.redirect "/auth" location) := by
  cases loading <;> cases user <;> simp [ProtectedRoute]

/-- Witness for `c4_route_guard` at concrete inputs. -/
theorem c4_route_guard_witness :
    ProtectedRoute true none "/dashboard" = GuardResult.renderNothing
      ∧ (ProtectedRoute false (some ⟨"u1", "u@example.com"⟩) "/dashboard"
           = GuardResult.renderChildren
         ↔ (some (⟨"u1", "u@example.com"⟩ : User)).isSome = true)
      ∧ ProtectedRoute false none "/settings"
           = GuardResult.redirect "/auth" "/settings" :=
  ⟨(c4_route_guard true none "/dashboard").1 rfl,
   (c4_route_guard false (some ⟨"u1", "u@example.com"⟩) "/dashboard").2.1 rfl,
   (c4_route_guard false none "/settings").2.2 rfl rfl⟩

/-- C8 confirmed: with `loading = false`, `user = null` and current
location `/dashboard`, the guard redirects to `/auth` carrying
`/dashboard` as the `from` navigation state. -/
theorem c8_redirect_carries_origin :
    ProtectedRoute false none "/dashboard"
      = GuardResult.redirect "/auth" "/dashboard" := rfl

/-! ## C5: the two startup callbacks commute and are idempotent -/

/-- C5 confirmed: with the same delivered session, the initial-fetch
callback and the subscription callback commute, either composition
equals a single application, and each callback is idempotent — so the
final `(user, session, loading)` state is the same in either order. -/
theorem c5_callbacks_commute_idempotent (s : Option Session) (st : AuthState) :
    getSessionCallback s (onAuthStateChangeCallback s st)
        = onAuthStateChangeCallback s (getSessionCallback s st)
      ∧ getSessionCallback s (onAuthStateChangeCallback s st)
        = onAuthStateChangeCallback s st
      ∧ onAuthStateChangeCallback s (onAuthStateChangeCallback s st)
        = onAuthStateChangeCallback s st
      ∧ getSessionCallback s (getSessionCallback s st)
        = getSessionCallback s st :=
  ⟨rfl, rfl, rfl, rfl⟩

/-! ## C6: the loading flag is a one-way latch -/

/-- C6 confirmed: the store starts with `loading = true`, and from any
reachable state with `loading = false`, no operation or callback —
sign in, sign up, Google sign-in, sign out, password reset,
subscription notification or initial session fetch — ever brings
`loading` back to `true` (the callbacks always set it `false`; the
operations never touch it). -/
theorem c6_loading_one_way_latch :
    initAuthState.loading = true
      ∧ ∀ st : AuthState, ReachableAuth st → st.loading = false →
          ∀ op : AuthOp, (applyAuthOp st op).loading = false := by
  refine ⟨rfl, fun st _ h op => ?_⟩
  cases op <;>
    simp [applyAuthOp, onAuthStateChangeCallback, getSessionCallback, h]

/-- Witness for `c6_loading_one_way_latch`: after the initial session
fetch resolves, a subsequent sign-out step leaves `loading` false. -/
theorem c6_loading_one_way_latch_witness :
    (applyAuthOp (applyAuthOp initAuthState (AuthOp.sessionFetch none))
        AuthOp.signOut).loading = false :=
  c6_loading_one_way_latch.2 _ (ReachableAuth.step (AuthOp.sessionFetch none)
    ReachableAuth.init) rfl AuthOp.signOut

/-! ## C7: email-confirmation and password-reset redirect targets -/

/-- C7 confirmed: for every environment (origin, base path), `signUp`'s
`emailRedirectTo` and `resetPassword`'s `redirectTo` are the same URL;
both are the environment's base URL with `/#/auth` appended — the
fragment `#/auth` marking the in-app auth route is a suffix of the
result.  Neither URL depends on the email argument. -/
theorem c7_email_redirects_agree (origin basePathEnv : String) :
    signUpEmailRedirect origin basePathEnv
        = resetPasswordRedirect origin basePathEnv
      ∧ signUpEmailRedirect origin basePathEnv
        = getBaseUrl_v0 origin basePathEnv ++ "/#/auth"
      ∧ List.IsSuffix "#/auth".data
          (signUpEmailRedirect origin basePathEnv).data := by
  refine ⟨rfl, rfl, ?_⟩
  show List.IsSuffix "#/auth".data
      (getBaseUrl_v0 origin basePathEnv ++ "/#/auth").data
  rw [String.data_append]
  exact List.IsSuffix.trans (by decide)
    (List.suffix_append (getBaseUrl_v0 origin basePathEnv).data "/#/auth".data)

/-! ## C9: hash navigation in the explicit-navigation revision -/

/-- C9 fails as stated: the subscription callback of
src/unnamed/part_003 changes the hash only for the events `SIGNED_IN`
and `INITIAL_SESSION`; delivering a non-null session under the event
`TOKEN_REFRESHED` with hash `""` leaves the hash unchanged instead of
setting `#/dashboard`. -/
theorem c9_event_counterexample :
    (authChangeCallback_v3 "TOKEN_REFRESHED" (some ⟨⟨"u1", "u@example.com"⟩⟩)
        ⟨initAuthState, ""⟩).hash = ""
      ∧ ((authChangeCallback_v3 "TOKEN_REFRESHED" (some ⟨⟨"u1", "u@example.com"⟩⟩)
        ⟨initAuthState, ""⟩).hash == "#/dashboard") = false := by
  exact ⟨by decide, by decide⟩

/-- C9, amended: the subscription callback sets the hash to
`#/dashboard` exactly when the session is non-null, the event is
`SIGNED_IN` or `INITIAL_SESSION`, and the current hash is `""`, `"#/"`
or `"#/auth"`; in every other case it leaves the hash unchanged.  The
initial-fetch callback sets the hash to `#/dashboard` exactly when the
session is non-null and the hash is one of those three values, and
leaves it unchanged otherwise. -/
theorem c9_hash_navigation (event : String) (session : Option Session)
    (st : NavState) :
    (session.isSome = true → (event = "SIGNED_IN" ∨ event = "INITIAL_SESSION") →
        (st.hash = "" ∨ st.hash = "#/" ∨ st.hash = "#/auth") →
        (authChangeCallback_v3 event session st).hash = "#/dashboard")
    ∧ (¬(session.isSome = true
           ∧ (event = "SIGNED_IN" ∨ event = "INITIAL_SESSION")
           ∧ (st.hash = "" ∨ st.hash = "#/" ∨ st.hash = "#/auth")) →
        (authChangeCallback_v3 event session st).hash = st.hash)
    ∧ (session.isSome = true →
        (st.hash = "" ∨ st.hash = "#/" ∨ st.hash = "#/auth") →
        (getSessionCallback_v3 session st).hash = "#/dashboard")
    ∧ (¬(session.isSome = true
           ∧ (st.hash = "" ∨ st.hash = "#/" ∨ st.hash = "#/auth")) →
        (getSessionCallback_v3 session st).hash = st.hash) := by
  simp only [authChangeCallback_v3, getSessionCallback_v3]
  refine ⟨fun hs he hh => ?_, fun hneg => ?_, fun hs hh => ?_, fun hneg => ?_⟩
  · rw [if_pos ⟨hs, he⟩, if_pos hh]
  · by_cases hc : session.isSome = true
        ∧ (event = "SIGNED_IN" ∨ event = "INITIAL_SESSION")
    · rw [if_pos hc,
        if_neg (fun hh => hneg ⟨hc.1, hc.2, hh⟩)]
    · rw [if_neg hc]
  · rw [if_pos hs, if_pos hh]
  · by_cases hc : session.isSome = true
    · rw [if_pos hc, if_neg (fun hh => hneg ⟨hc, hh⟩)]
    · rw [if_neg hc]

/-- Witness for `c9_hash_navigation` at concrete inputs: a `SIGNED_IN`
notification with a session on `#/auth` navigates to `#/dashboard`; a
null-session initial fetch on `#/habits` leaves the hash alone. -/
theorem c9_hash_navigation_witness :
    (authChangeCallback_v3 "SIGNED_IN" (some ⟨⟨"u1", "u@example.com"⟩⟩)
        ⟨initAuthState, "#/auth"⟩).hash = "#/dashboard"
      ∧ (getSessionCallback_v3 none ⟨initAuthState, "#/habits"⟩).hash
        = "#/habits" :=
  ⟨(c9_hash_navigation "SIGNED_IN" (some ⟨⟨"u1", "u@example.com"⟩⟩)
      ⟨initAuthState, "#/auth"⟩).1 rfl (Or.inl rfl) (Or.inr (Or.inr rfl)),
   (c9_hash_navigation "SIGNED_IN" none ⟨initAuthState, "#/habits"⟩).2.2.2
      (by decide)⟩

/-! ## C10: the `useAuth` guard -/

/-- C10 confirmed: outside a provider (context `none`) `useAuth` throws
the error `useAuth must be used within an AuthProvider`; inside a
provider it returns the context value unchanged. -/
theorem c10_useAuth_guard {α : Type} (ctx : Option α) :
    (ctx = none →
        useAuth ctx = Except.error "useAuth must be used within an AuthProvider")
    ∧ ∀ c : α, ctx = some c → useAuth ctx = Except.ok c := by
  cases ctx <;> simp [useAuth]

/-- Witness for `c10_useAuth_guard` at a concrete context value. -/
theorem c10_useAuth_guard_witness :
    useAuth (none : Option AuthState)
        = Except.error "useAuth must be used within an AuthProvider"
      ∧ useAuth (some initAuthState) = Except.ok initAuthState :=
  ⟨(c10_useAuth_guard (none : Option AuthState)).1 rfl,
   (c10_useAuth_guard (some initAuthState)).2 initAuthState rfl⟩

end HabitChain
